import Mathlib

/-!
# Verification of the rustorm SQL compilation engine

A shallow embedding of `src/database.rs` (the default methods of the `Database` trait, that compile a `Query` AST into SQL text plus a positional
parameter list), together with theorems settling the frozen claims.

Embedding conventions:

* The Rust code threads a mutable `SqlFrag` writer through the recursive
  builders.  Here every builder returns the *fragment it appends*: an
  `Option SqlFrag` holding the emitted text and the parameters it binds,
  in order.  The extra `cnt : Nat` argument is the number of parameters
  already bound in the enclosing writer, which is exactly the state a
  builder can observe (it determines numbered-placeholder indices).
  The statement-level builders (`build_select`, `build_insert`,
  `build_update`, `build_delete`, and `build_query`) create a fresh
  writer (`SqlFrag::new`) in the source, so they take no `cnt` and start
  from zero.  `none` models a Rust `assert!`/index panic (fatal abort).
* Rust `assert!` failures and out-of-bounds indexing abort compilation;
  both are modelled as `none`.
* A `fuel : Nat` argument makes the mutual recursion structural; every
  builder consumes one unit on entry and `none` is returned on
  exhaustion.  All theorems about success (`= some _`) or about fatal
  aborts (`= none`) are fuel-independent in the appropriate direction.
* `query.rs` and `writer.rs` are not part of the provided sources; the
  data declared there (`Query`, `Operand`, `Filter`, ..., `SqlFrag` and
  its helper methods) is modelled from the specification, as marked on
  each such definition.  `database.rs` is translated verbatim.
-/

set_option maxHeartbeats 1600000

namespace Rustorm

/-- The capability flags of a SQL dialect, from `SqlOption` in
`src/database.rs` lines 12-29. -/
inductive SqlOption
  | UsesNumberedParam
  | UsesQuestionMark
  | SupportsReturningClause
  | SupportsCTE
  | SupportsInheritance
  | UsesSchema
  | ReturnMetaColumns
deriving DecidableEq, Repr

/-- Modelled from the spec: a literal value is a "typed scalar (text,
integer, float, boolean, uuid, timestamp, null, ...)"; a representative
closed set of scalar variants suffices for the compilation engine, which
only stores values in the parameter list and never inspects them. -/
inductive Value
  | Text (s : String)
  | I64 (i : Int)
  | VBool (b : Bool)
  | Null
deriving DecidableEq, Repr

/-- Modelled from the spec: the Fragment Writer "accumulates output SQL
text and a positional parameter list".  A builder in this development
returns the fragment it appends. -/
structure SqlFrag where
  sql : String
  params : List Value
deriving DecidableEq, Repr

/-- Modelled from the spec: `bind(value)` "appends a dialect-correct
placeholder (`$<n>` incrementing per profile numbered-placeholders, or a
literal `?` for question-mark-placeholders)".  `n` is the 1-based index
of the parameter in the whole statement. -/
def placeholder (opts : List SqlOption) (n : Nat) : String :=
  if SqlOption.UsesNumberedParam ∈ opts then "$" ++ toString n else "?"

/-- Modelled from the spec: a column reference is a "schema/table/column
triple" (`query.rs` is not in the provided sources). -/
structure ColumnName where
  column : String
  table : Option String
  schema : Option String
deriving DecidableEq, Repr

/-- Modelled from the spec: the "fully qualified `table.column` form"
used for disambiguation once joins are present. -/
def ColumnName.complete_name (c : ColumnName) : String :=
  match c.table with
  | some t => t ++ "." ++ c.column
  | none => c.column

/-- Modelled from the spec / the `Table` shown in `src/lib.rs`: a table
reference carries a schema and a name. -/
structure TableName where
  schema : String
  name : String
deriving DecidableEq, Repr

/-- Modelled from the spec: the "schema-qualified name (`schema.table`)". -/
def TableName.complete_name (t : TableName) : String :=
  t.schema ++ "." ++ t.name

/-- The comparison operators, from the match in `build_condition`
(`src/database.rs` lines 208-221); the source has both `NULL` and
`IS_NULL`, rendered identically. -/
inductive Equality
  | EQ | NE | LT | LTE | GT | GTE | IN | NOT_IN | LIKE
  | NULL | IS_NOT_NULL | IS_NULL
deriving DecidableEq, Repr

/-- Boolean connector between a filter and its parent, from the match in
`build_filter` (`src/database.rs` lines 243-250). -/
inductive Connector
  | And
  | Or
deriving DecidableEq, Repr

/-- Join modifier, from `build_select` (`src/database.rs` lines 308-312). -/
inductive Modifier
  | LEFT | RIGHT | FULL
deriving DecidableEq, Repr

/-- Join type, from `build_select` (`src/database.rs` lines 317-321). -/
inductive JoinType
  | CROSS | INNER | OUTER
deriving DecidableEq, Repr

/-- Order-by direction, from `build_select` (`src/database.rs` lines
379-382). -/
inductive Direction
  | ASC | DESC
deriving DecidableEq, Repr

/-- Statement kind, from the dispatch in `build_query`
(`src/database.rs` lines 149-154). -/
inductive SqlType
  | SELECT | INSERT | UPDATE | DELETE
deriving DecidableEq, Repr

/-- Modelled from the spec (the join fields used by `build_select`):
optional modifier, join type, joined table, and the two positionally
matched column-name lists. -/
structure Join where
  modifier : Option Modifier
  join_type : JoinType
  table_name : TableName
  column1 : List String
  column2 : List String
deriving DecidableEq, Repr

mutual
/-- Modelled from the spec: the operand union — column reference, table
reference, function call, sub-query, literal value, operand list —
exactly the variants matched by `build_operand` in `src/database.rs`. -/
inductive Operand
  | ColumnName (c : Rustorm.ColumnName)
  | TableName (t : Rustorm.TableName)
  | Function (f : Rustorm.Function)
  | Query (q : Rustorm.Query)
  | Value (v : Rustorm.Value)
  | Vec (operands : List Operand)

/-- Modelled from the spec: a function call is a "name + ordered operand
list". -/
inductive Function
  | mk (name : String) (params : List Operand)

/-- Modelled from the spec: `{left: Operand, equality: EqualityOp,
right: Operand}`, as consumed by `build_condition`. -/
inductive Condition
  | mk (left : Operand) (equality : Equality) (right : Operand)

/-- Modelled from the spec: a filter tree node with its own condition, a
connector toward its parent, and subfilters, as consumed by
`build_filter`. -/
inductive Filter
  | mk (connector : Connector) (condition : Condition) (subfilters : List Filter)

/-- Modelled from the spec: `{operand: Operand, alias: optional name}`,
as consumed by `build_field`. -/
inductive Field
  | mk (operand : Operand) (name : Option String)

/-- Modelled from the spec: the root query entity with the fields read
by the four statement builders in `src/database.rs`. -/
inductive Query
  | mk (sql_type : SqlType)
       (enumerated_fields : List Field)
       (from_ : Option Field)
       (joins : List Join)
       (filters : List Filter)
       (group_by : List Operand)
       (having : List Condition)
       (order_by : List (String × Direction))
       (page : Option Nat)
       (page_size : Option Nat)
       (values : List Operand)
       (enumerated_returns : List Field)
end

/-- Accessor for `Function.name`. -/
def Function.name : Function → String
  | .mk n _ => n

/-- Accessor for `Function.params`. -/
def Function.params : Function → List Operand
  | .mk _ ps => ps

/-- Accessor for `Condition.left`. -/
def Condition.left : Condition → Operand
  | .mk l _ _ => l

/-- Accessor for `Condition.equality`. -/
def Condition.equality : Condition → Equality
  | .mk _ e _ => e

/-- Accessor for `Condition.right`. -/
def Condition.right : Condition → Operand
  | .mk _ _ r => r

/-- Accessor for `Filter.connector`. -/
def Filter.connector : Filter → Connector
  | .mk c _ _ => c

/-- Accessor for `Filter.condition`. -/
def Filter.condition : Filter → Condition
  | .mk _ c _ => c

/-- Accessor for `Filter.subfilters`. -/
def Filter.subfilters : Filter → List Filter
  | .mk _ _ s => s

/-- Accessor for `Field.operand`. -/
def Field.operand : Field → Operand
  | .mk o _ => o

/-- Accessor for `Field.name` (the rename alias). -/
def Field.name : Field → Option String
  | .mk _ n => n

/-- Accessor for `Query.sql_type`. -/
def Query.sql_type : Query → SqlType
  | .mk s _ _ _ _ _ _ _ _ _ _ _ => s

/-- Accessor for `Query.enumerated_fields`. -/
def Query.enumerated_fields : Query → List Field
  | .mk _ a _ _ _ _ _ _ _ _ _ _ => a

/-- Accessor for `Query.from` (named `from_` as `from` is reserved). -/
def Query.from_ : Query → Option Field
  | .mk _ _ a _ _ _ _ _ _ _ _ _ => a

/-- Accessor for `Query.joins`. -/
def Query.joins : Query → List Join
  | .mk _ _ _ a _ _ _ _ _ _ _ _ => a

/-- Accessor for `Query.filters`. -/
def Query.filters : Query → List Filter
  | .mk _ _ _ _ a _ _ _ _ _ _ _ => a

/-- Accessor for `Query.group_by`. -/
def Query.group_by : Query → List Operand
  | .mk _ _ _ _ _ a _ _ _ _ _ _ => a

/-- Accessor for `Query.having`. -/
def Query.having : Query → List Condition
  | .mk _ _ _ _ _ _ a _ _ _ _ _ => a

/-- Accessor for `Query.order_by`. -/
def Query.order_by : Query → List (String × Direction)
  | .mk _ _ _ _ _ _ _ a _ _ _ _ => a

/-- Accessor for `Query.page`. -/
def Query.page : Query → Option Nat
  | .mk _ _ _ _ _ _ _ _ a _ _ _ => a

/-- Accessor for `Query.page_size`. -/
def Query.page_size : Query → Option Nat
  | .mk _ _ _ _ _ _ _ _ _ a _ _ => a

/-- Accessor for `Query.values`. -/
def Query.values : Query → List Operand
  | .mk _ _ _ _ _ _ _ _ _ _ a _ => a

/-- Accessor for `Query.enumerated_returns`. -/
def Query.enumerated_returns : Query → List Field
  | .mk _ _ _ _ _ _ _ _ _ _ _ a => a

/-- Modelled from the spec: `get_from_table` (declared in `query.rs`,
which is not in the provided sources) extracts the target table of the
statement: the table reference held by the `from` field. -/
def get_from_table (q : Query) : Option TableName :=
  match q.from_ with
  | some f =>
    match f.operand with
    | .TableName t => some t
    | _ => none
  | none => none

/-- Modelled from the spec: `get_enumerated_columns` (declared in
`query.rs`, not in the provided sources) lists the plain column
references among the enumerated fields, in order; `build_update` pairs
them positionally with `values`. -/
def get_enumerated_columns (q : Query) : List ColumnName :=
  q.enumerated_fields.filterMap fun f =>
    match f.operand with
    | .ColumnName c => some c
    | _ => none

/-- The operator-token mapping of `build_condition`
(`src/database.rs` lines 208-221). -/
def equality_token : Equality → String
  | .EQ => "= "
  | .NE => "!= "
  | .LT => "< "
  | .LTE => "<= "
  | .GT => "> "
  | .GTE => ">= "
  | .IN => "IN "
  | .NOT_IN => "NOT IN "
  | .LIKE => "LIKE "
  | .NULL => "IS NULL "
  | .IS_NOT_NULL => "IS NOT NULL "
  | .IS_NULL => "IS NULL "

/-- The per-join `ON`/`AND` column-equality chain of `build_select`
(`src/database.rs` lines 326-341): for each pair, a line break with two
tabs, then `ON ` for the first pair and `AND ` afterwards, then
`left = right `. -/
def join_on : List (String × String) → Bool → String
  | [], _ => ""
  | (jc, c2) :: rest, do_and =>
    "\n\t\t" ++ (if do_and then "AND " else "ON ") ++ jc ++ " = " ++ c2 ++ " "
      ++ join_on rest true

/-- The join loop of `build_select` (`src/database.rs` lines 303-343):
each join emits a line break and tab, the optional modifier keyword, the
join-type keyword, `JOIN `, the complete table name, and the column
chain.  The source asserts `column1.len() == column2.len()`; a mismatch
aborts compilation (`none`). -/
def build_joins : List Join → Option String
  | [] => some ""
  | join :: rest =>
    if join.column1.length = join.column2.length then
      match build_joins rest with
      | none => none
      | some t =>
        some ("\n\t"
          ++ (match join.modifier with
              | some .LEFT => "LEFT "
              | some .RIGHT => "RIGHT "
              | some .FULL => "FULL "
              | none => "")
          ++ (match join.join_type with
              | .CROSS => "CROSS "
              | .INNER => "INNER "
              | .OUTER => "OUTER ")
          ++ "JOIN " ++ join.table_name.complete_name ++ " "
          ++ join_on (join.column1.zip join.column2) false
          ++ t)
    else none

/-- The `ORDER BY` loop of `build_select` (`src/database.rs` lines
372-384): comma-space separated `column ASC`/`column DESC`. -/
def build_order_by : List (String × Direction) → Bool → String
  | [], _ => ""
  | (column, direction) :: rest, do_comma =>
    (if do_comma then ", " else "") ++ column
      ++ (match direction with
          | .ASC => " ASC"
          | .DESC => " DESC")
      ++ build_order_by rest true

/-- The `SET` loop of `build_update` (`src/database.rs` lines 463-480):
for each enumerated column, a comma-space separator after the first,
the column name and ` = `, then — only when the positionally matching
operand in `values` is a literal `Value` — a bound placeholder.  Any
other operand kind leaves the right-hand side empty.  Indexing
`values[column_index]` out of bounds is a Rust panic, modelled as
`none`.  `cnt` counts parameters already bound. -/
def build_update_set (opts : List SqlOption) :
    List ColumnName → List Operand → Nat → Nat → Bool → Option SqlFrag
  | [], _, _, _, _ => some ⟨"", []⟩
  | ec :: rest, values, column_index, cnt, do_comma =>
    let sep := if do_comma then ", " else ""
    match values.get? column_index with
    | none => none
    | some v =>
      match v with
      | .Value value =>
        match build_update_set opts rest values (column_index + 1) (cnt + 1) true with
        | none => none
        | some w =>
          some ⟨sep ++ ec.column ++ " = " ++ placeholder opts (cnt + 1) ++ w.sql,
                value :: w.params⟩
      | _ =>
        match build_update_set opts rest values (column_index + 1) cnt true with
        | none => none
        | some w => some ⟨sep ++ ec.column ++ " = " ++ w.sql, w.params⟩

mutual

/-- `build_operand` (`src/database.rs` lines 158-203).  Dispatch on the
operand variant: a column renders bare or fully qualified depending on
whether the parent query has joins; a table renders schema-qualified
depending on the profile; a function renders its parenthesized
comma-separated arguments (the source never appends the function name);
a sub-query is compiled with `build_query` (a fresh writer) and only its
`sql` text is appended — its `params` are dropped; a literal value binds
a placeholder; a non-empty operand list renders parenthesized and
comma-separated, an empty one renders nothing. -/
def build_operand : Nat → List SqlOption → Query → Operand → Nat → Option SqlFrag
  | 0, _, _, _, _ => none
  | fuel+1, opts, parent_query, operand, cnt =>
    match operand with
    | .ColumnName column_name =>
      if parent_query.joins.isEmpty then
        some ⟨column_name.column, []⟩
      else
        some ⟨column_name.complete_name, []⟩
    | .TableName table_name =>
      if SqlOption.UsesSchema ∈ opts then
        some ⟨table_name.complete_name, []⟩
      else
        some ⟨table_name.name, []⟩
    | .Function function => do
      let w ← build_operand_list fuel opts parent_query function.params cnt false
      pure ⟨"(" ++ w.sql ++ ")", w.params⟩
    | .Query q => do
      let sql_frag ← build_query fuel opts q
      pure ⟨sql_frag.sql, []⟩
    | .Value value =>
      some ⟨placeholder opts (cnt + 1), [value]⟩
    | .Vec operands =>
      if operands.isEmpty then
        some ⟨"", []⟩
      else do
        let w ← build_operand_list fuel opts parent_query operands cnt false
        pure ⟨"(" ++ w.sql ++ ")", w.params⟩
termination_by structural fuel _ _ _ _ => fuel

/-- The comma-space separated operand loops shared by the `Function` and
`Vec` arms of `build_operand` (lines 176-180 and 191-198) and the
`VALUES` loop of `build_insert` (lines 431-435): identical
`do_comma`-guarded iteration over operands. -/
def build_operand_list : Nat → List SqlOption → Query → List Operand → Nat → Bool → Option SqlFrag
  | 0, _, _, _, _, _ => none
  | _+1, _, _, [], _, _ => some ⟨"", []⟩
  | fuel+1, opts, parent_query, op :: rest, cnt, do_comma => do
    let w1 ← build_operand fuel opts parent_query op cnt
    let w2 ← build_operand_list fuel opts parent_query rest (cnt + w1.params.length) true
    pure ⟨(if do_comma then ", " else "") ++ w1.sql ++ w2.sql, w1.params ++ w2.params⟩
termination_by structural fuel _ _ _ _ _ => fuel

/-- `build_condition` (`src/database.rs` lines 205-223): left operand, a
space, the operator token, then the right operand — the right operand is
compiled unconditionally, for every operator including
`IS_NULL`/`IS_NOT_NULL`. -/
def build_condition : Nat → List SqlOption → Query → Condition → Nat → Option SqlFrag
  | 0, _, _, _, _ => none
  | fuel+1, opts, parent_query, cond, cnt => do
    let lw ← build_operand fuel opts parent_query cond.left cnt
    let rw ← build_operand fuel opts parent_query cond.right (cnt + lw.params.length)
    pure ⟨lw.sql ++ " " ++ equality_token cond.equality ++ rw.sql, lw.params ++ rw.params⟩
termination_by structural fuel _ _ _ _ => fuel

/-- `build_field` (`src/database.rs` lines 225-234): the operand, then
` AS alias` when a rename is present. -/
def build_field : Nat → List SqlOption → Query → Field → Nat → Option SqlFrag
  | 0, _, _, _, _ => none
  | fuel+1, opts, parent_query, field, cnt => do
    let w ← build_operand fuel opts parent_query field.operand cnt
    match field.name with
    | some nm => pure ⟨w.sql ++ " AS " ++ nm, w.params⟩
    | none => pure w
termination_by structural fuel _ _ _ _ => fuel

/-- `build_enumerated_fields` (`src/database.rs` lines 274-285):
comma-space separated fields, with a line break and tab inserted before
every fourth field (`k` counts fields already emitted). -/
def build_enumerated_fields : Nat → List SqlOption → Query → List Field → Nat → Bool → Nat → Option SqlFrag
  | 0, _, _, _, _, _, _ => none
  | _+1, _, _, [], _, _, _ => some ⟨"", []⟩
  | fuel+1, opts, parent_query, field :: rest, cnt, do_comma, k => do
    let sep := if do_comma then ", " else ""
    let brk := if (k + 1) % 4 = 0 then "\n\t" else ""
    let w1 ← build_field fuel opts parent_query field cnt
    let w2 ← build_enumerated_fields fuel opts parent_query rest (cnt + w1.params.length) true (k + 1)
    pure ⟨sep ++ brk ++ w1.sql ++ w2.sql, w1.params ++ w2.params⟩
termination_by structural fuel _ _ _ _ _ _ => fuel

/-- The comma-space separated field loop of the `RETURNING` blocks in
`build_insert` and `build_update` (`src/database.rs` lines 441-445 and
490-494). -/
def build_field_list : Nat → List SqlOption → Query → List Field → Nat → Bool → Option SqlFrag
  | 0, _, _, _, _, _ => none
  | _+1, _, _, [], _, _ => some ⟨"", []⟩
  | fuel+1, opts, parent_query, field :: rest, cnt, do_comma => do
    let w1 ← build_field fuel opts parent_query field cnt
    let w2 ← build_field_list fuel opts parent_query rest (cnt + w1.params.length) true
    pure ⟨(if do_comma then ", " else "") ++ w1.sql ++ w2.sql, w1.params ++ w2.params⟩
termination_by structural fuel _ _ _ _ _ => fuel

/-- `build_filter` (`src/database.rs` lines 237-256): the own condition of the node followed by its subfilters (each preceded by its connector
keyword), the whole node wrapped in `( ` and ` )` exactly when the
subfilter list is non-empty. -/
def build_filter : Nat → List SqlOption → Query → Filter → Nat → Option SqlFrag
  | 0, _, _, _, _ => none
  | fuel+1, opts, parent_query, filter, cnt => do
    let cw ← build_condition fuel opts parent_query filter.condition cnt
    let sw ← build_subfilters fuel opts parent_query filter.subfilters (cnt + cw.params.length)
    if filter.subfilters.isEmpty then
      pure ⟨cw.sql ++ sw.sql, cw.params ++ sw.params⟩
    else
      pure ⟨"( " ++ cw.sql ++ sw.sql ++ " )", cw.params ++ sw.params⟩
termination_by structural fuel _ _ _ _ => fuel

/-- The subfilter loop of `build_filter` (`src/database.rs` lines
242-252): the own connector keyword of each subfilter (`AND `/`OR `) followed
by the recursively built subfilter. -/
def build_subfilters : Nat → List SqlOption → Query → List Filter → Nat → Option SqlFrag
  | 0, _, _, _, _ => none
  | _+1, _, _, [], _ => some ⟨"", []⟩
  | fuel+1, opts, parent_query, filt :: rest, cnt => do
    let conn := match filt.connector with
      | .And => "AND "
      | .Or => "OR "
    let w1 ← build_filter fuel opts parent_query filt cnt
    let w2 ← build_subfilters fuel opts parent_query rest (cnt + w1.params.length)
    pure ⟨conn ++ w1.sql ++ w2.sql, w1.params ++ w2.params⟩
termination_by structural fuel _ _ _ _ => fuel

/-- `build_filters` (`src/database.rs` lines 260-271): the top-level
filter list of a query, consecutive filters separated by a line break
with two tabs and the keyword `AND ` — never `OR`. -/
def build_filters : Nat → List SqlOption → Query → List Filter → Nat → Bool → Option SqlFrag
  | 0, _, _, _, _, _ => none
  | _+1, _, _, [], _, _ => some ⟨"", []⟩
  | fuel+1, opts, parent_query, filter :: rest, cnt, do_and => do
    let w1 ← build_filter fuel opts parent_query filter cnt
    let w2 ← build_filters fuel opts parent_query rest (cnt + w1.params.length) true
    pure ⟨(if do_and then "\n\t\t" ++ "AND " else "") ++ w1.sql ++ w2.sql,
          w1.params ++ w2.params⟩
termination_by structural fuel _ _ _ _ _ => fuel

/-- The `GROUP BY` loop of `build_select` (`src/database.rs` lines
351-360): comma (no space) separated operands, each followed by a
space. -/
def build_group_by : Nat → List SqlOption → Query → List Operand → Nat → Bool → Option SqlFrag
  | 0, _, _, _, _, _ => none
  | _+1, _, _, [], _, _ => some ⟨"", []⟩
  | fuel+1, opts, parent_query, operand :: rest, cnt, do_comma => do
    let w1 ← build_operand fuel opts parent_query operand cnt
    let w2 ← build_group_by fuel opts parent_query rest (cnt + w1.params.length) true
    pure ⟨(if do_comma then "," else "") ++ w1.sql ++ " " ++ w2.sql, w1.params ++ w2.params⟩
termination_by structural fuel _ _ _ _ _ => fuel

/-- The `HAVING` loop of `build_select` (`src/database.rs` lines
362-370): comma-space separated conditions. -/
def build_having : Nat → List SqlOption → Query → List Condition → Nat → Bool → Option SqlFrag
  | 0, _, _, _, _, _ => none
  | _+1, _, _, [], _, _ => some ⟨"", []⟩
  | fuel+1, opts, parent_query, hav :: rest, cnt, do_comma => do
    let w1 ← build_condition fuel opts parent_query hav cnt
    let w2 ← build_having fuel opts parent_query rest (cnt + w1.params.length) true
    pure ⟨(if do_comma then ", " else "") ++ w1.sql ++ w2.sql, w1.params ++ w2.params⟩
termination_by structural fuel _ _ _ _ _ => fuel

/-- The `RETURNING` block shared verbatim by `build_insert` and
`build_update` (`src/database.rs` lines 438-447 and 487-496): only when
`enumerated_returns` is non-empty AND the profile contains
`SupportsReturningClause` is `RETURNING ` plus the field list emitted;
otherwise nothing is emitted and compilation proceeds normally. -/
def build_returning : Nat → List SqlOption → Query → List Field → Nat → Option SqlFrag
  | 0, _, _, _, _ => none
  | fuel+1, opts, parent_query, rets, cnt =>
    if rets.isEmpty then
      some ⟨"", []⟩
    else if SqlOption.SupportsReturningClause ∈ opts then do
      let w ← build_field_list fuel opts parent_query rets cnt false
      pure ⟨"RETURNING " ++ w.sql, w.params⟩
    else
      some ⟨"", []⟩
termination_by structural fuel _ _ _ _ => fuel

/-- `build_query` (`src/database.rs` lines 148-155): dispatch on the
statement kind. -/
def build_query : Nat → List SqlOption → Query → Option SqlFrag
  | 0, _, _ => none
  | fuel+1, opts, query =>
    match query.sql_type with
    | .SELECT => build_select fuel opts query
    | .INSERT => build_insert fuel opts query
    | .UPDATE => build_update fuel opts query
    | .DELETE => build_delete fuel opts query
termination_by structural fuel _ _ => fuel

/-- The body of `build_select` (`src/database.rs` lines 288-384) up to
and excluding the `LIMIT`/`OFFSET` clauses: field list, mandatory `FROM`
target (its absence is a fatal assert), joins, `WHERE`, `GROUP BY`,
`HAVING`, `ORDER BY`. -/
def build_select_core : Nat → List SqlOption → Query → Option SqlFrag
  | 0, _, _ => none
  | fuel+1, opts, query => do
    let fw ← build_enumerated_fields fuel opts query query.enumerated_fields 0 false 0
    let some from_field := query.from_ | none
    let frw ← build_field fuel opts query from_field fw.params.length
    let joinsT ← build_joins query.joins
    let cnt1 := fw.params.length + frw.params.length
    let wF ← (if query.filters.isEmpty then pure (⟨"", []⟩ : SqlFrag) else do
      let x ← build_filters fuel opts query query.filters cnt1 false
      pure (⟨"\n\t" ++ "WHERE " ++ x.sql, x.params⟩ : SqlFrag))
    let cnt2 := cnt1 + wF.params.length
    let gF ← (if query.group_by.isEmpty then pure (⟨"", []⟩ : SqlFrag) else do
      let x ← build_group_by fuel opts query query.group_by cnt2 false
      pure (⟨"\n\t" ++ "GROUP BY " ++ x.sql, x.params⟩ : SqlFrag))
    let cnt3 := cnt2 + gF.params.length
    let hF ← (if query.having.isEmpty then pure (⟨"", []⟩ : SqlFrag) else do
      let x ← build_having fuel opts query query.having cnt3 false
      pure (⟨"\n\t" ++ "HAVING " ++ x.sql, x.params⟩ : SqlFrag))
    let oT := if query.order_by.isEmpty then "" else
      "\n\t" ++ "ORDER BY " ++ build_order_by query.order_by false
    pure ⟨"SELECT " ++ fw.sql ++ "\n" ++ " FROM " ++ frw.sql ++ joinsT
            ++ wF.sql ++ gF.sql ++ hF.sql ++ oT,
          fw.params ++ frw.params ++ wF.params ++ gF.params ++ hF.params⟩
termination_by structural fuel _ _ => fuel

/-- `build_select` (`src/database.rs` lines 288-407): the core clauses,
then `LIMIT page_size` when a page size is set, then `OFFSET
page * page_size` when a page is set — a page without a page size is a
fatal assert. -/
def build_select : Nat → List SqlOption → Query → Option SqlFrag
  | 0, _, _ => none
  | fuel+1, opts, query => do
    let core ← build_select_core fuel opts query
    let limitT := match query.page_size with
      | some page_size => "\n\t" ++ "LIMIT " ++ toString page_size
      | none => ""
    match query.page with
    | some page =>
      match query.page_size with
      | none => none
      | some page_size =>
        pure ⟨core.sql ++ limitT ++ "\n\t" ++ "OFFSET " ++ toString (page * page_size),
              core.params⟩
    | none => pure ⟨core.sql ++ limitT, core.params⟩
termination_by structural fuel _ _ => fuel

/-- `build_insert` (`src/database.rs` lines 410-450): target table
(schema-qualified only with the `UsesSchema` capability; its absence is
a fatal assert), the enumerated column list, the `VALUES(...)` clause
(an empty `values` list is a fatal assert), the `RETURNING` block, and a
final newline. -/
def build_insert : Nat → List SqlOption → Query → Option SqlFrag
  | 0, _, _ => none
  | fuel+1, opts, query => do
    let some table_name := get_from_table query | none
    let tnameT := if SqlOption.UsesSchema ∈ opts then table_name.complete_name
      else table_name.name
    let fw ← build_enumerated_fields fuel opts query query.enumerated_fields 0 false 0
    if query.values.isEmpty then none else do
      let vw ← build_operand_list fuel opts query query.values fw.params.length false
      let rw ← build_returning fuel opts query query.enumerated_returns
        (fw.params.length + vw.params.length)
      pure ⟨"INSERT INTO " ++ tnameT ++ "(" ++ fw.sql ++ ") " ++ "VALUES( "
              ++ vw.sql ++ ") " ++ rw.sql ++ "\n",
            fw.params ++ vw.params ++ rw.params⟩
termination_by structural fuel _ _ => fuel

/-- `build_update` (`src/database.rs` lines 453-498): `UPDATE` plus the
complete (always schema-qualified) table name (absence is a fatal
assert) and a newline, `SET ` when there are enumerated columns, the SET
assignment loop, `WHERE`, and the `RETURNING` block. -/
def build_update : Nat → List SqlOption → Query → Option SqlFrag
  | 0, _, _ => none
  | fuel+1, opts, query => do
    let some from_table := get_from_table query | none
    let enumerated_columns := get_enumerated_columns query
    let sw ← build_update_set opts enumerated_columns query.values 0 0 false
    let wF ← (if query.filters.isEmpty then pure (⟨"", []⟩ : SqlFrag) else do
      let x ← build_filters fuel opts query query.filters sw.params.length false
      pure (⟨"\n\t" ++ "WHERE " ++ x.sql, x.params⟩ : SqlFrag))
    let rw ← build_returning fuel opts query query.enumerated_returns
      (sw.params.length + wF.params.length)
    pure ⟨"UPDATE " ++ from_table.complete_name ++ "\n"
            ++ (if enumerated_columns.isEmpty then "" else "SET ")
            ++ sw.sql ++ wF.sql ++ rw.sql,
          sw.params ++ wF.params ++ rw.params⟩
termination_by structural fuel _ _ => fuel

/-- `build_delete` (`src/database.rs` lines 500-514): `DELETE FROM`
plus the complete table name (absence is a fatal assert), then
`WHERE`. -/
def build_delete : Nat → List SqlOption → Query → Option SqlFrag
  | 0, _, _ => none
  | fuel+1, opts, query => do
    let some from_table := get_from_table query | none
    let wF ← (if query.filters.isEmpty then pure (⟨"", []⟩ : SqlFrag) else do
      let x ← build_filters fuel opts query query.filters 0 false
      pure (⟨"\n\t" ++ "WHERE " ++ x.sql, x.params⟩ : SqlFrag))
    pure ⟨"DELETE FROM " ++ from_table.complete_name ++ wF.sql, wF.params⟩
termination_by structural fuel _ _ => fuel
end

/-! ## Sample inputs used by concrete theorems and witnesses -/

/-- A numbered-placeholder capability profile (the postgres-style
profile of the spec). -/
def optsNum : List SqlOption := [SqlOption.UsesNumberedParam]

/-- An empty query, used only as the parent-query context of operand
level evaluations (the parent is consulted solely for its joins). -/
def qEmpty : Query := .mk .SELECT [] none [] [] [] [] [] none none [] []

/-- A bare column-reference operand. -/
def colOp (s : String) : Operand := .ColumnName ⟨s, none, none⟩

/-- A nested SELECT over table `s.t2` filtered by `d = <2>`; it binds
one parameter. -/
def innerQ : Query := .mk .SELECT [⟨colOp "c", none⟩] (some ⟨.TableName ⟨"s", "t2"⟩, none⟩)
  [] [.mk .And (.mk (colOp "d") .EQ (.Value (.I64 2))) []] [] [] [] none none [] []

/-- A SELECT over `s.t1` with filters `a = <1>` and `b IN (sub-query)`,
the sub-query being `innerQ`. -/
def outerQ : Query := .mk .SELECT [⟨colOp "a", none⟩] (some ⟨.TableName ⟨"s", "t1"⟩, none⟩)
  [] [.mk .And (.mk (colOp "a") .EQ (.Value (.I64 1))) [],
      .mk .And (.mk (colOp "b") .IN (.Query innerQ)) []] [] [] [] none none [] []

/-- An UPDATE of columns `a`, `b` where slot `a` holds a non-literal
operand (a function call) and slot `b` a literal. -/
def updQ : Query := .mk .UPDATE [⟨colOp "a", none⟩, ⟨colOp "b", none⟩]
  (some ⟨.TableName ⟨"bazaar", "product"⟩, none⟩) [] [] [] [] [] none none
  [.Function (.mk "now" []), .Value (.I64 5)] []

/-- An INSERT of one value into `bazaar.product` requesting one
`RETURNING` column. -/
def insQ : Query := .mk .INSERT [⟨colOp "a", none⟩]
  (some ⟨.TableName ⟨"bazaar", "product"⟩, none⟩) [] [] [] [] [] none none
  [.Value (.I64 7)] [⟨colOp "a", none⟩]

/-! ## Helper lemmas -/

/-- Success of an optional bind decomposes into success of both steps. -/
theorem bind_some {α β : Type} {o : Option α} {f : α → Option β} {b : β} :
    (o >>= f) = some b ↔ ∃ a, o = some a ∧ f a = some b := by
  cases o <;> simp

/-- Joining a list of rendered filters with the top-level separator of
`build_filters` (a line break, two tabs, and the keyword `AND `): `n`
texts produce exactly `n - 1` separators, and the separator is never
`OR`. -/
def and_sep_join : List String → String
  | [] => ""
  | [t] => t
  | t :: rest => t ++ "\n\t\t" ++ "AND " ++ and_sep_join rest

/-- Variant of `and_sep_join` with a separator before every element,
matching the `do_and = true` state of the loop. -/
def and_sep_join_pref : List String → String
  | [] => ""
  | t :: rest => "\n\t\t" ++ "AND " ++ (t ++ and_sep_join_pref rest)

theorem and_sep_join_eq_pref (t : String) (l : List String) :
    and_sep_join (t :: l) = t ++ and_sep_join_pref l := by
  induction l generalizing t with
  | nil => simp [and_sep_join, and_sep_join_pref]
  | cons a l ih =>
    simp only [and_sep_join, and_sep_join_pref, ih a, String.append_assoc]

theorem build_filters_shape (fuel : Nat) (opts : List SqlOption) (pq : Query) :
    ∀ (fs : List Filter) (cnt : Nat) (da : Bool) (w : SqlFrag),
      build_filters fuel opts pq fs cnt da = some w →
      ∃ ts : List String, ts.length = fs.length ∧
        w.sql = (if da then and_sep_join_pref ts else and_sep_join ts) ∧
        ∀ (i : Nat) (h1 : i < fs.length) (h2 : i < ts.length),
          ∃ (f c : Nat) (p : List Value),
            build_filter f opts pq (fs.get ⟨i, h1⟩) c = some ⟨ts.get ⟨i, h2⟩, p⟩ := by
  induction fuel with
  | zero => intro fs cnt da w h; simp [build_filters] at h
  | succ fuel ih =>
    intro fs cnt da w h
    cases fs with
    | nil =>
      simp only [build_filters, Option.some.injEq] at h
      subst h
      refine ⟨[], rfl, ?_, ?_⟩
      · cases da <;> simp [and_sep_join, and_sep_join_pref]
      · intro i h1 h2; exact absurd h1 (by simp)
    | cons f rest =>
      simp only [build_filters] at h
      rw [bind_some] at h
      obtain ⟨w1, hw1, h⟩ := h
      rw [bind_some] at h
      obtain ⟨w2, hw2, h⟩ := h
      simp only [Option.pure_def, Option.some.injEq] at h
      subst h
      obtain ⟨ts2, hlen, hsql, hpt⟩ := ih rest (cnt + w1.params.length) true w2 hw2
      rw [if_pos rfl] at hsql
      refine ⟨w1.sql :: ts2, by simp [hlen], ?_, ?_⟩
      · cases da with
        | false =>
          rw [if_neg (by simp)]
          rw [and_sep_join_eq_pref]
          simp only [Bool.false_eq_true, if_false, String.empty_append, hsql]
        | true =>
          rw [if_pos rfl]
          simp only [if_true, and_sep_join_pref, hsql, String.append_assoc]
      · intro i h1 h2
        cases i with
        | zero => exact ⟨fuel, cnt, w1.params, by simp [hw1]⟩
        | succ i => exact hpt i (by simpa using h1) (by simpa using h2)

/-! ## Claims -/

/-- C1: the claim states that compiling a statement containing a
sub-query operand appends the bound values of the sub-query to the single
shared parameter list and that placeholder numbering is one shared
counter, never reset inside the sub-query.  The code does the opposite:
`build_operand` compiles the nested query into a fresh writer, splices
only its text, and discards its parameters, so the nested `<2>` is
missing from the output parameter list and the nested placeholder is
numbered `$1` again (the outer statement already used `$1`). -/
theorem C1_subquery_params_dropped :
    build_select 20 optsNum outerQ =
      some ⟨"SELECT a\n FROM t1\n\tWHERE a = $1\n\t\tAND b IN SELECT c\n FROM t2\n\tWHERE d = $1",
            [Value.I64 1]⟩
    ∧ build_select 20 optsNum innerQ =
      some ⟨"SELECT c\n FROM t2\n\tWHERE d = $1", [Value.I64 2]⟩
    ∧ Value.I64 2 ∉ ([Value.I64 1] : List Value) :=
  ⟨by decide, by decide, by decide⟩

/-- C2: the claim states that a `Function` operand compiles to
`name(arg1, arg2, ...)`.  The source `build_operand` never appends the
function name: the operand `count(x)` compiles to `(x)`. -/
theorem C2_function_name_missing :
    build_operand 20 optsNum qEmpty (.Function (.mk "count" [colOp "x"])) 0 =
      some ⟨"(x)", []⟩
    ∧ "(x)" ≠ "count" ++ "(x)" :=
  ⟨by decide, by decide⟩

/-- C3 counterexample: the claim states that an UPDATE with a
non-literal operand in a SET slot skips the entire assignment — no
column name, no equals sign.  On `updQ` (slot `a` holds a function
call) the code emits `a = ` with an empty right-hand side, so the
output is not the fully-skipped form `UPDATE bazaar.product\nSET b = $1`. -/
theorem C3_counterexample :
    build_update 20 optsNum updQ =
      some ⟨"UPDATE bazaar.product\n" ++ "SET a = , b = $1", [Value.I64 5]⟩
    ∧ "UPDATE bazaar.product\n" ++ "SET a = , b = $1" ≠
      "UPDATE bazaar.product\n" ++ "SET b = $1" :=
  ⟨by decide, by decide⟩

/-- C9 counterexample: the claim states that for `IS_NULL` the right
operand contributes no text and no bound parameter.  The code compiles
the right operand unconditionally: with right operand `<9>` the
condition renders `a IS NULL $1` and binds the parameter `9`. -/
theorem C9_counterexample :
    build_condition 20 optsNum qEmpty (.mk (colOp "a") .IS_NULL (.Value (.I64 9))) 0 =
      some ⟨"a IS NULL $1", [Value.I64 9]⟩
    ∧ ([Value.I64 9] : List Value) ≠ [] :=
  ⟨by decide, by decide⟩

/-- C4: compiling a top-level filter list of length `n` joins the `n`
individually compiled filters with exactly `n - 1` occurrences of the
separator (line break, two tabs, `AND `) and no `OR` between them:
`and_sep_join` inserts one `AND ` separator per element after the
first, and each joined text is itself the output of `build_filter` on
the corresponding filter.  `OR` can therefore only originate inside a
compilation of a single filter (its subfilters). -/
theorem C4_top_level_and (fuel : Nat) (opts : List SqlOption) (pq : Query)
    (fs : List Filter) (cnt : Nat) (w : SqlFrag)
    (h : build_filters fuel opts pq fs cnt false = some w) :
    ∃ ts : List String, ts.length = fs.length ∧
      w.sql = and_sep_join ts ∧
      ∀ (i : Nat) (h1 : i < fs.length) (h2 : i < ts.length),
        ∃ (f c : Nat) (p : List Value),
          build_filter f opts pq (fs.get ⟨i, h1⟩) c = some ⟨ts.get ⟨i, h2⟩, p⟩ := by
  obtain ⟨ts, hlen, hsql, hpt⟩ := build_filters_shape fuel opts pq fs cnt false w h
  rw [if_neg (by simp)] at hsql
  exact ⟨ts, hlen, hsql, hpt⟩

/-- C4 witness: the two-filter list `a = <1>`, `b = <2>` compiles with
one top-level `AND` separator. -/
theorem C4_top_level_and_witness :
    build_filters 20 optsNum qEmpty
      [.mk .And (.mk (colOp "a") .EQ (.Value (.I64 1))) [],
       .mk .And (.mk (colOp "b") .EQ (.Value (.I64 2))) []] 0 false =
      some ⟨"a = $1\n\t\t" ++ "AND b = $2", [Value.I64 1, Value.I64 2]⟩
    ∧ ∃ ts : List String, ts.length = 2 ∧
        ("a = $1\n\t\t" ++ "AND b = $2" : String) = and_sep_join ts :=
  ⟨by decide, by
    obtain ⟨ts, hlen, hsql, _⟩ := C4_top_level_and 20 optsNum qEmpty
      [.mk .And (.mk (colOp "a") .EQ (.Value (.I64 1))) [],
       .mk .And (.mk (colOp "b") .EQ (.Value (.I64 2))) []] 0
      ⟨"a = $1\n\t\t" ++ "AND b = $2", [Value.I64 1, Value.I64 2]⟩ (by decide)
    exact ⟨ts, hlen, hsql⟩⟩

/-- C5: filter compilation wraps its output in parentheses exactly when
the subfilter list is non-empty.  A leaf filter compiles to precisely
the compilation of its condition (no parentheses added by the filter layer);
a filter with subfilters always compiles to `( ... )`. -/
theorem C5_filter_parenthesization (fuel : Nat) (opts : List SqlOption) (pq : Query)
    (filter : Filter) (cnt : Nat) :
    (filter.subfilters = [] →
      build_filter (fuel + 1) opts pq filter cnt =
        build_condition fuel opts pq filter.condition cnt)
    ∧ (filter.subfilters ≠ [] → ∀ w,
        build_filter (fuel + 1) opts pq filter cnt = some w →
        ∃ inner, w.sql = "( " ++ inner ++ " )") := by
  constructor
  · intro hsub
    cases hfc : build_condition fuel opts pq filter.condition cnt with
    | none => simp [build_filter, hfc]
    | some cw =>
      cases fuel with
      | zero => simp [build_condition] at hfc
      | succ n =>
        simp [build_filter, hfc, hsub, build_subfilters]
  · intro hsub w h
    simp only [build_filter] at h
    rw [bind_some] at h
    obtain ⟨cw, hcw, h⟩ := h
    rw [bind_some] at h
    obtain ⟨sw, hsw, h⟩ := h
    cases hfs : filter.subfilters with
    | nil => exact absurd hfs hsub
    | cons a l =>
      rw [hfs] at h
      simp only [List.isEmpty_cons, Bool.false_eq_true, if_false,
        Option.pure_def, Option.some.injEq] at h
      subst h
      exact ⟨cw.sql ++ sw.sql, by simp [String.append_assoc]⟩

/-- C5 witness: a leaf filter compiles exactly to its condition, and a
filter with one subfilter compiles to a parenthesized node. -/
theorem C5_filter_parenthesization_witness :
    (build_filter 20 optsNum qEmpty (.mk .And (.mk (colOp "a") .EQ (.Value (.I64 1))) []) 0 =
      build_condition 19 optsNum qEmpty
        (Filter.mk .And (.mk (colOp "a") .EQ (.Value (.I64 1))) []).condition 0)
    ∧ ∃ inner, ("( a = $1" ++ "OR b = $2 )" : String) = "( " ++ inner ++ " )" :=
  ⟨(C5_filter_parenthesization 19 optsNum qEmpty
      (.mk .And (.mk (colOp "a") .EQ (.Value (.I64 1))) []) 0).1 rfl,
   (C5_filter_parenthesization 19 optsNum qEmpty
      (.mk .And (.mk (colOp "a") .EQ (.Value (.I64 1)))
        [.mk .Or (.mk (colOp "b") .EQ (.Value (.I64 2))) []]) 0).2
      (List.cons_ne_nil _ _)
      ⟨"( a = $1" ++ "OR b = $2 )", [Value.I64 1, Value.I64 2]⟩
      (by decide)⟩

/-- Reference rendering of the UPDATE SET slots, following the amended
claim: each (column, operand) pair contributes the column name and the
equals sign; a literal `Value` slot additionally contributes a bound
placeholder and its parameter (numbered from `n`), while a non-literal
slot contributes an empty right-hand side — no placeholder, no
parameter — instead of the whole assignment being skipped. -/
def update_set_spec (opts : List SqlOption) :
    List (ColumnName × Operand) → Nat → (List String × List Value)
  | [], _ => ([], [])
  | (c, .Value v) :: rest, n =>
    let r := update_set_spec opts rest (n + 1)
    ((c.column ++ " = " ++ placeholder opts (n + 1)) :: r.1, v :: r.2)
  | (c, _) :: rest, n =>
    let r := update_set_spec opts rest n
    ((c.column ++ " = ") :: r.1, r.2)

/-- Comma-space joining of rendered slots; the flag states whether a
separator is due before the first element. -/
def comma_join : Bool → List String → String
  | _, [] => ""
  | dc, t :: rest => (if dc then ", " else "") ++ t ++ comma_join true rest

theorem build_update_set_spec (opts : List SqlOption) (values : List Operand) :
    ∀ (cols : List ColumnName) (idx cnt : Nat) (dc : Bool),
      idx + cols.length ≤ values.length →
      build_update_set opts cols values idx cnt dc =
        some ⟨comma_join dc (update_set_spec opts (cols.zip (values.drop idx)) cnt).1,
              (update_set_spec opts (cols.zip (values.drop idx)) cnt).2⟩ := by
  intro cols
  induction cols with
  | nil => intro idx cnt dc h; simp [build_update_set, update_set_spec, comma_join]
  | cons ec rest ih =>
    intro idx cnt dc h
    have hidx : idx < values.length := by
      simp only [List.length_cons] at h
      omega
    have hget : values.get? idx = some (values.get ⟨idx, hidx⟩) := by
      rw [List.get?_eq_getElem?, List.getElem?_eq_getElem hidx]
      simp
    have hdrop : values.drop idx = values.get ⟨idx, hidx⟩ :: values.drop (idx + 1) := by
      rw [List.drop_eq_getElem_cons hidx]
      simp
    have hrec : idx + 1 + rest.length ≤ values.length := by
      simp only [List.length_cons] at h
      omega
    rw [hdrop]
    cases hv : values.get ⟨idx, hidx⟩ with
    | Value x =>
      simp only [build_update_set, hget, hv, ih (idx + 1) (cnt + 1) true hrec,
        update_set_spec, comma_join, List.zip_cons_cons]
      simp [String.append_assoc, List.zip]
    | ColumnName c =>
      simp only [build_update_set, hget, hv, ih (idx + 1) cnt true hrec,
        update_set_spec, comma_join, List.zip_cons_cons]
      simp [String.append_assoc, List.zip]
    | TableName t =>
      simp only [build_update_set, hget, hv, ih (idx + 1) cnt true hrec,
        update_set_spec, comma_join, List.zip_cons_cons]
      simp [String.append_assoc, List.zip]
    | Function f =>
      simp only [build_update_set, hget, hv, ih (idx + 1) cnt true hrec,
        update_set_spec, comma_join, List.zip_cons_cons]
      simp [String.append_assoc, List.zip]
    | Query q =>
      simp only [build_update_set, hget, hv, ih (idx + 1) cnt true hrec,
        update_set_spec, comma_join, List.zip_cons_cons]
      simp [String.append_assoc, List.zip]
    | Vec ops =>
      simp only [build_update_set, hget, hv, ih (idx + 1) cnt true hrec,
        update_set_spec, comma_join, List.zip_cons_cons]
      simp [String.append_assoc, List.zip]

/-- C3 amended: for an UPDATE whose positional values list holds a
non-literal operand at some SET position, compilation does not skip the
assignment; it emits the column name and the equals sign for that slot
and omits only the right-hand side — no placeholder and no bound
parameter for that slot — as `update_set_spec` states slot by slot
(literal slots render normally). -/
theorem C3_amended_update_set (opts : List SqlOption) (cols : List ColumnName)
    (values : List Operand) (h : cols.length ≤ values.length) :
    build_update_set opts cols values 0 0 false =
      some ⟨comma_join false (update_set_spec opts (cols.zip values) 0).1,
            (update_set_spec opts (cols.zip values) 0).2⟩ := by
  have hh := build_update_set_spec opts values cols 0 0 false (by omega)
  simpa using hh

/-- C3 amended witness: on the concrete UPDATE slots of `updQ` (a
function call in slot `a`, a literal in slot `b`), the SET loop emits
`a = , b = $1` with the single parameter `5`. -/
theorem C3_amended_update_set_witness :
    ([(⟨"a", none, none⟩ : ColumnName), ⟨"b", none, none⟩].length ≤
      [Operand.Function (.mk "now" []), Operand.Value (.I64 5)].length)
    ∧ build_update_set optsNum [⟨"a", none, none⟩, ⟨"b", none, none⟩]
        [.Function (.mk "now" []), .Value (.I64 5)] 0 0 false =
      some ⟨comma_join false (update_set_spec optsNum
              ([(⟨"a", none, none⟩ : ColumnName), ⟨"b", none, none⟩].zip
                [Operand.Function (.mk "now" []), Operand.Value (.I64 5)]) 0).1,
            (update_set_spec optsNum
              ([(⟨"a", none, none⟩ : ColumnName), ⟨"b", none, none⟩].zip
                [Operand.Function (.mk "now" []), Operand.Value (.I64 5)]) 0).2⟩ :=
  ⟨by decide, C3_amended_update_set optsNum _ _ (by decide)⟩

/-- C6: SELECT paging.  With both `page` and `page_size` set, the output
is the core SELECT followed by `LIMIT page_size` and `OFFSET
page * page_size`; with `page_size` alone, only `LIMIT page_size` is
appended (no `OFFSET` text is added after it); with `page` set but
`page_size` absent, compilation aborts fatally. -/
theorem C6_paging (fuel : Nat) (opts : List SqlOption) (q : Query) :
    (∀ pg, q.page = some pg → q.page_size = none →
      build_select (fuel + 1) opts q = none)
    ∧ (∀ ps w, q.page_size = some ps → q.page = none →
        build_select (fuel + 1) opts q = some w →
        ∃ core, build_select_core fuel opts q = some core ∧
          w.sql = core.sql ++ "\n\t" ++ "LIMIT " ++ toString ps ∧
          w.params = core.params)
    ∧ (∀ pg ps w, q.page = some pg → q.page_size = some ps →
        build_select (fuel + 1) opts q = some w →
        ∃ core, build_select_core fuel opts q = some core ∧
          w.sql = core.sql ++ "\n\t" ++ "LIMIT " ++ toString ps
                    ++ "\n\t" ++ "OFFSET " ++ toString (pg * ps) ∧
          w.params = core.params) := by
  refine ⟨?_, ?_, ?_⟩
  · intro pg hpg hps
    simp only [build_select]
    cases hcore : build_select_core fuel opts q with
    | none => simp
    | some core => simp [hpg, hps]
  · intro ps w hps hpg h
    simp only [build_select] at h
    rw [bind_some] at h
    obtain ⟨core, hcore, h⟩ := h
    rw [hpg, hps] at h
    simp only [Option.pure_def, Option.some.injEq] at h
    subst h
    exact ⟨core, hcore, by simp [String.append_assoc], rfl⟩
  · intro pg ps w hpg hps h
    simp only [build_select] at h
    rw [bind_some] at h
    obtain ⟨core, hcore, h⟩ := h
    rw [hpg, hps] at h
    simp only [Option.pure_def, Option.some.injEq] at h
    subst h
    exact ⟨core, hcore, by simp [String.append_assoc], rfl⟩

/-- C6 witness: `page = 2, page_size = 10` yields `LIMIT 10` and
`OFFSET 20`; `page_size = 10` alone yields only `LIMIT 10`; `page = 2`
without a page size is fatal. -/
theorem C6_paging_witness :
    build_select 20 optsNum
      (.mk .SELECT [⟨colOp "a", none⟩] (some ⟨.TableName ⟨"s", "t1"⟩, none⟩)
        [] [] [] [] [] (some 2) none [] []) = none
    ∧ (∃ core, build_select_core 19 optsNum
        (.mk .SELECT [⟨colOp "a", none⟩] (some ⟨.TableName ⟨"s", "t1"⟩, none⟩)
          [] [] [] [] [] (some 2) (some 10) [] []) = some core ∧
        ("SELECT a\n FROM t1\n\tLIMIT 10\n\tOFFSET 20" : String) =
          core.sql ++ "\n\t" ++ "LIMIT " ++ toString (10 : Nat)
            ++ "\n\t" ++ "OFFSET " ++ toString (2 * 10 : Nat) ∧
        ([] : List Value) = core.params)
    ∧ (∃ core, build_select_core 19 optsNum
        (.mk .SELECT [⟨colOp "a", none⟩] (some ⟨.TableName ⟨"s", "t1"⟩, none⟩)
          [] [] [] [] [] none (some 10) [] []) = some core ∧
        ("SELECT a\n FROM t1\n\tLIMIT 10" : String) =
          core.sql ++ "\n\t" ++ "LIMIT " ++ toString (10 : Nat) ∧
        ([] : List Value) = core.params) :=
  ⟨(C6_paging 19 optsNum _).1 2 rfl rfl,
   (C6_paging 19 optsNum _).2.2 2 10 ⟨"SELECT a\n FROM t1\n\tLIMIT 10\n\tOFFSET 20", []⟩
     rfl rfl (by decide),
   (C6_paging 19 optsNum _).2.1 10 ⟨"SELECT a\n FROM t1\n\tLIMIT 10", []⟩
     rfl rfl (by decide)⟩

/-- C9 amended: the renderer does not ignore the right operand of an
`IS_NULL`/`IS_NOT_NULL` condition; `build_condition` compiles the right
operand of every condition after the operator token and appends its
text and parameters.  The right operand contributes nothing exactly
when it itself renders to nothing, such as the empty operand list a
caller may pass as a structural placeholder. -/
theorem C9_amended_condition (fuel : Nat) (opts : List SqlOption) (pq : Query)
    (cond : Condition) (cnt : Nat) (w : SqlFrag)
    (h : build_condition (fuel + 1) opts pq cond cnt = some w) :
    ∃ wl wr, build_operand fuel opts pq cond.left cnt = some wl ∧
      build_operand fuel opts pq cond.right (cnt + wl.params.length) = some wr ∧
      w.sql = wl.sql ++ " " ++ equality_token cond.equality ++ wr.sql ∧
      w.params = wl.params ++ wr.params ∧
      (cond.right = .Vec [] → wr = ⟨"", []⟩) := by
  simp only [build_condition] at h
  rw [bind_some] at h
  obtain ⟨wl, hwl, h⟩ := h
  rw [bind_some] at h
  obtain ⟨wr, hwr, h⟩ := h
  simp only [Option.pure_def, Option.some.injEq] at h
  subst h
  refine ⟨wl, wr, hwl, hwr, by simp [String.append_assoc], rfl, ?_⟩
  intro hr
  rw [hr] at hwr
  cases fuel with
  | zero => simp [build_operand] at hwr
  | succ n =>
    simp only [build_operand, List.isEmpty_nil, if_true, Option.some.injEq] at hwr
    exact hwr.symm

/-- C9 amended witness: with the empty operand list as the structural
right operand, `a IS_NULL` renders `a IS NULL ` with no parameter; the
right operand was still compiled (to the empty fragment). -/
theorem C9_amended_condition_witness :
    build_condition 20 optsNum qEmpty (.mk (colOp "a") .IS_NULL (.Vec [])) 0 =
      some ⟨"a IS NULL ", []⟩
    ∧ ∃ wl wr, build_operand 19 optsNum qEmpty
        (Condition.mk (colOp "a") .IS_NULL (.Vec [])).left 0 = some wl ∧
      build_operand 19 optsNum qEmpty
        (Condition.mk (colOp "a") .IS_NULL (.Vec [])).right (0 + wl.params.length) = some wr ∧
      (⟨"a IS NULL ", []⟩ : SqlFrag).sql =
        wl.sql ++ " " ++ equality_token (Condition.mk (colOp "a") .IS_NULL (.Vec [])).equality
          ++ wr.sql ∧
      (⟨"a IS NULL ", []⟩ : SqlFrag).params = wl.params ++ wr.params ∧
      ((Condition.mk (colOp "a") .IS_NULL (.Vec [])).right = .Vec [] → wr = ⟨"", []⟩) :=
  ⟨by decide,
   C9_amended_condition 19 optsNum qEmpty (.mk (colOp "a") .IS_NULL (.Vec [])) 0
     ⟨"a IS NULL ", []⟩ (by decide)⟩

/-- C7: the `RETURNING` capability gate.  Without
`SupportsReturningClause` in the profile the returning block emits
nothing and succeeds (never a fatal error); with the capability and a
non-empty `enumerated_returns` it emits `RETURNING ...`; and both
`build_insert` and `build_update` end by appending exactly this block
(then a newline, for INSERT), so the clause appears in a compiled
INSERT/UPDATE precisely under the gate. -/
theorem C7_returning_gate (fuel : Nat) (opts : List SqlOption) (pq q : Query)
    (rets : List Field) (cnt : Nat) :
    (SqlOption.SupportsReturningClause ∉ opts →
      build_returning (fuel + 1) opts pq rets cnt = some ⟨"", []⟩)
    ∧ (rets = [] → build_returning (fuel + 1) opts pq rets cnt = some ⟨"", []⟩)
    ∧ (SqlOption.SupportsReturningClause ∈ opts → rets ≠ [] → ∀ w,
        build_returning (fuel + 1) opts pq rets cnt = some w →
        ∃ rest, w.sql = "RETURNING " ++ rest)
    ∧ (∀ w, build_insert (fuel + 1) opts q = some w →
        ∃ (pre : String) (preP : List Value) (cntR : Nat) (wr : SqlFrag),
          build_returning fuel opts q q.enumerated_returns cntR = some wr ∧
          w.sql = pre ++ wr.sql ++ "\n" ∧ w.params = preP ++ wr.params)
    ∧ (∀ w, build_update (fuel + 1) opts q = some w →
        ∃ (pre : String) (preP : List Value) (cntR : Nat) (wr : SqlFrag),
          build_returning fuel opts q q.enumerated_returns cntR = some wr ∧
          w.sql = pre ++ wr.sql ∧ w.params = preP ++ wr.params) := by
  refine ⟨?_, ?_, ?_, ?_, ?_⟩
  · intro hno
    simp [build_returning, hno]
  · intro hre
    simp [build_returning, hre]
  · intro hin hne w h
    simp only [build_returning] at h
    rw [if_neg (by simpa using hne), if_pos hin] at h
    rw [bind_some] at h
    obtain ⟨wf, hwf, h⟩ := h
    simp only [Option.pure_def, Option.some.injEq] at h
    subst h
    exact ⟨wf.sql, rfl⟩
  · intro w h
    simp only [build_insert] at h
    cases hgt : get_from_table q with
    | none => rw [hgt] at h; simp at h
    | some tbl =>
      rw [hgt] at h
      simp only at h
      rw [bind_some] at h
      obtain ⟨fw, hfw, h⟩ := h
      cases hve : q.values.isEmpty with
      | true => rw [hve] at h; simp at h
      | false =>
        rw [hve] at h
        simp only [Bool.false_eq_true, if_false] at h
        rw [bind_some] at h
        obtain ⟨vw, hvw, h⟩ := h
        rw [bind_some] at h
        obtain ⟨wr, hwr, h⟩ := h
        simp only [Option.pure_def, Option.some.injEq] at h
        subst h
        exact ⟨_, _, _, wr, hwr, rfl, rfl⟩
  · intro w h
    simp only [build_update] at h
    cases hgt : get_from_table q with
    | none => rw [hgt] at h; simp at h
    | some tbl =>
      rw [hgt] at h
      simp only at h
      rw [bind_some] at h
      obtain ⟨sw, hsw, h⟩ := h
      rw [bind_some] at h
      obtain ⟨wF, hwF, h⟩ := h
      rw [bind_some] at h
      obtain ⟨wr, hwr, h⟩ := h
      simp only [Option.pure_def, Option.some.injEq] at h
      subst h
      exact ⟨_, _, _, wr, hwr, rfl, rfl⟩

/-- C7 witness: without the capability, the returning block of a query
with a non-empty returns list emits nothing and the INSERT still
succeeds; with the capability the block emits `RETURNING ...`. -/
theorem C7_returning_gate_witness :
    build_returning 20 optsNum qEmpty [⟨colOp "a", none⟩] 0 = some ⟨"", []⟩
    ∧ (∃ rest, (⟨"RETURNING a", []⟩ : SqlFrag).sql = "RETURNING " ++ rest)
    ∧ build_insert 20 optsNum insQ =
        some ⟨"INSERT INTO product(a) " ++ "VALUES( $1) " ++ "\n", [Value.I64 7]⟩
    ∧ (∃ (pre : String) (preP : List Value) (cntR : Nat) (wr : SqlFrag),
        build_returning 19 optsNum insQ insQ.enumerated_returns cntR = some wr ∧
        (⟨"INSERT INTO product(a) " ++ "VALUES( $1) " ++ "\n", [Value.I64 7]⟩ : SqlFrag).sql =
          pre ++ wr.sql ++ "\n" ∧
        (⟨"INSERT INTO product(a) " ++ "VALUES( $1) " ++ "\n", [Value.I64 7]⟩ : SqlFrag).params =
          preP ++ wr.params) :=
  ⟨(C7_returning_gate 19 optsNum qEmpty qEmpty [⟨colOp "a", none⟩] 0).1 (by decide),
   (C7_returning_gate 19 [SqlOption.UsesNumberedParam, SqlOption.SupportsReturningClause]
      qEmpty qEmpty [⟨colOp "a", none⟩] 0).2.2.1 (by decide) (by simp)
      ⟨"RETURNING a", []⟩ (by decide),
   by decide,
   (C7_returning_gate 19 optsNum qEmpty insQ [] 0).2.2.2.1
     ⟨"INSERT INTO product(a) " ++ "VALUES( $1) " ++ "\n", [Value.I64 7]⟩ (by decide)⟩

/-- A fatal `FROM` precondition propagates: a SELECT core with no
`from` target is `none` for every fuel. -/
theorem build_select_core_none_of_from_none (fuel : Nat) (opts : List SqlOption)
    (q : Query) (h : q.from_ = none) : build_select_core fuel opts q = none := by
  cases hc : build_select_core fuel opts q with
  | none => rfl
  | some w =>
    exfalso
    cases fuel with
    | zero => simp [build_select_core] at hc
    | succ n =>
      simp only [build_select_core] at hc
      rw [bind_some] at hc
      obtain ⟨fw, hfw, hc⟩ := hc
      rw [h] at hc
      simp at hc

/-- A join with mismatched column lists makes the whole join loop
fatal. -/
theorem build_joins_none_of_bad (j : Join)
    (hb : j.column1.length ≠ j.column2.length) :
    ∀ joins : List Join, j ∈ joins → build_joins joins = none := by
  intro joins
  induction joins with
  | nil => intro hm; exact absurd hm (List.not_mem_nil j)
  | cons a rest ih =>
    intro hm
    rcases List.mem_cons.mp hm with heq | hmem
    · subst heq
      simp [build_joins, hb]
    · simp only [build_joins, ih hmem]
      split
      · rfl
      · rfl

/-- A bad join aborts the whole SELECT core. -/
theorem build_select_core_none_of_bad_join (fuel : Nat) (opts : List SqlOption)
    (q : Query) (j : Join) (hj : j ∈ q.joins)
    (hb : j.column1.length ≠ j.column2.length) :
    build_select_core fuel opts q = none := by
  cases hc : build_select_core fuel opts q with
  | none => rfl
  | some w =>
    exfalso
    cases fuel with
    | zero => simp [build_select_core] at hc
    | succ n =>
      simp only [build_select_core] at hc
      rw [bind_some] at hc
      obtain ⟨fw, hfw, hc⟩ := hc
      cases hfr : q.from_ with
      | none => rw [hfr] at hc; simp at hc
      | some ff =>
        simp only [hfr] at hc
        rw [bind_some] at hc
        obtain ⟨frw, hfrw, hc⟩ := hc
        rw [build_joins_none_of_bad j hb q.joins hj] at hc
        simp at hc

/-- C8: the structural preconditions are fatal.  A SELECT with no
`from` is `none`; INSERT, UPDATE and DELETE with no target table are
`none`; an INSERT with an empty values list is `none`; a SELECT with a
join whose column lists differ in length is `none`.  In the `Option`
model `none` is the fatal abort: no partially built fragment is ever
returned as a `some`. -/
theorem C8_fatal_preconditions (fuel : Nat) (opts : List SqlOption) (q : Query) :
    (q.from_ = none → build_select fuel opts q = none)
    ∧ (get_from_table q = none →
        build_insert fuel opts q = none ∧ build_update fuel opts q = none ∧
          build_delete fuel opts q = none)
    ∧ (q.values = [] → build_insert fuel opts q = none)
    ∧ (∀ j, j ∈ q.joins → j.column1.length ≠ j.column2.length →
        build_select fuel opts q = none) := by
  refine ⟨?_, ?_, ?_, ?_⟩
  · intro h
    cases fuel with
    | zero => simp [build_select]
    | succ n =>
      simp only [build_select]
      rw [build_select_core_none_of_from_none n opts q h]
      simp
  · intro h
    refine ⟨?_, ?_, ?_⟩
    · cases fuel with
      | zero => simp [build_insert]
      | succ n => simp [build_insert, h]
    · cases fuel with
      | zero => simp [build_update]
      | succ n => simp [build_update, h]
    · cases fuel with
      | zero => simp [build_delete]
      | succ n => simp [build_delete, h]
  · intro h
    cases fuel with
    | zero => simp [build_insert]
    | succ n =>
      simp only [build_insert]
      cases hgt : get_from_table q with
      | none => simp
      | some tbl =>
        simp only
        cases hf : build_enumerated_fields n opts q q.enumerated_fields 0 false 0 with
        | none => simp
        | some fw => simp [hf, h]
  · intro j hj hb
    cases fuel with
    | zero => simp [build_select]
    | succ n =>
      simp only [build_select]
      rw [build_select_core_none_of_bad_join n opts q j hj hb]
      simp

/-- C8 witness: concrete fatal inputs — a SELECT with no `from`, an
UPDATE with no target table, an INSERT with empty values, and a SELECT
with a mismatched join — all compile to `none`. -/
theorem C8_fatal_preconditions_witness :
    build_select 20 optsNum (.mk .SELECT [⟨colOp "a", none⟩] none [] [] [] [] [] none none [] []) = none
    ∧ build_update 20 optsNum (.mk .UPDATE [⟨colOp "a", none⟩] none [] [] [] [] [] none none [.Value (.I64 5)] []) = none
    ∧ build_insert 20 optsNum (.mk .INSERT [⟨colOp "a", none⟩]
        (some ⟨.TableName ⟨"bazaar", "product"⟩, none⟩) [] [] [] [] [] none none [] []) = none
    ∧ build_select 20 optsNum (.mk .SELECT [⟨colOp "a", none⟩]
        (some ⟨.TableName ⟨"s", "t1"⟩, none⟩)
        [⟨none, .INNER, ⟨"s", "t2"⟩, ["x", "y"], ["x"]⟩] [] [] [] [] none none [] []) = none :=
  ⟨(C8_fatal_preconditions 20 optsNum
      (.mk .SELECT [⟨colOp "a", none⟩] none [] [] [] [] [] none none [] [])).1 rfl,
   ((C8_fatal_preconditions 20 optsNum
      (.mk .UPDATE [⟨colOp "a", none⟩] none [] [] [] [] [] none none
        [.Value (.I64 5)] [])).2.1 rfl).2.1,
   (C8_fatal_preconditions 20 optsNum
      (.mk .INSERT [⟨colOp "a", none⟩]
        (some ⟨.TableName ⟨"bazaar", "product"⟩, none⟩) [] [] [] [] [] none none [] [])).2.2.1 rfl,
   (C8_fatal_preconditions 20 optsNum
      (.mk .SELECT [⟨colOp "a", none⟩] (some ⟨.TableName ⟨"s", "t1"⟩, none⟩)
        [⟨none, .INNER, ⟨"s", "t2"⟩, ["x", "y"], ["x"]⟩] [] [] [] [] none none [] [])).2.2.2
     ⟨none, .INNER, ⟨"s", "t2"⟩, ["x", "y"], ["x"]⟩ (by decide) (by decide)⟩

/-- C10: UPDATE and DELETE always emit the complete schema-qualified
target table name, with no dependency on the `UsesSchema` capability,
while INSERT emits the bare table name exactly when the profile lacks
`UsesSchema` (and the qualified name when it has it). -/
theorem C10_table_qualification (fuel : Nat) (opts : List SqlOption) (q : Query)
    (tbl : TableName) (hgt : get_from_table q = some tbl) :
    (∀ w, build_update (fuel + 1) opts q = some w →
      ∃ rest, w.sql = "UPDATE " ++ tbl.complete_name ++ "\n" ++ rest)
    ∧ (∀ w, build_delete (fuel + 1) opts q = some w →
      ∃ rest, w.sql = "DELETE FROM " ++ tbl.complete_name ++ rest)
    ∧ (SqlOption.UsesSchema ∉ opts → ∀ w, build_insert (fuel + 1) opts q = some w →
      ∃ rest, w.sql = "INSERT INTO " ++ tbl.name ++ "(" ++ rest)
    ∧ (SqlOption.UsesSchema ∈ opts → ∀ w, build_insert (fuel + 1) opts q = some w →
      ∃ rest, w.sql = "INSERT INTO " ++ tbl.complete_name ++ "(" ++ rest) := by
  refine ⟨?_, ?_, ?_, ?_⟩
  · intro w h
    simp only [build_update, hgt] at h
    rw [bind_some] at h
    obtain ⟨sw, hsw, h⟩ := h
    rw [bind_some] at h
    obtain ⟨wF, hwF, h⟩ := h
    rw [bind_some] at h
    obtain ⟨wr, hwr, h⟩ := h
    simp only [Option.pure_def, Option.some.injEq] at h
    subst h
    refine ⟨(if (get_enumerated_columns q).isEmpty then "" else "SET ")
      ++ sw.sql ++ wF.sql ++ wr.sql, ?_⟩
    simp [String.append_assoc]
  · intro w h
    simp only [build_delete, hgt] at h
    rw [bind_some] at h
    obtain ⟨wF, hwF, h⟩ := h
    simp only [Option.pure_def, Option.some.injEq] at h
    subst h
    exact ⟨wF.sql, rfl⟩
  · intro hflag w h
    simp only [build_insert, hgt] at h
    rw [if_neg hflag] at h
    rw [bind_some] at h
    obtain ⟨fw, hfw, h⟩ := h
    cases hve : q.values.isEmpty with
    | true => rw [hve] at h; simp at h
    | false =>
      rw [hve] at h
      simp only [Bool.false_eq_true, if_false] at h
      rw [bind_some] at h
      obtain ⟨vw, hvw, h⟩ := h
      rw [bind_some] at h
      obtain ⟨wr, hwr, h⟩ := h
      simp only [Option.pure_def, Option.some.injEq] at h
      subst h
      refine ⟨fw.sql ++ ") " ++ "VALUES( " ++ vw.sql ++ ") " ++ wr.sql ++ "\n", ?_⟩
      simp [String.append_assoc]
  · intro hflag w h
    simp only [build_insert, hgt] at h
    rw [if_pos hflag] at h
    rw [bind_some] at h
    obtain ⟨fw, hfw, h⟩ := h
    cases hve : q.values.isEmpty with
    | true => rw [hve] at h; simp at h
    | false =>
      rw [hve] at h
      simp only [Bool.false_eq_true, if_false] at h
      rw [bind_some] at h
      obtain ⟨vw, hvw, h⟩ := h
      rw [bind_some] at h
      obtain ⟨wr, hwr, h⟩ := h
      simp only [Option.pure_def, Option.some.injEq] at h
      subst h
      refine ⟨fw.sql ++ ") " ++ "VALUES( " ++ vw.sql ++ ") " ++ wr.sql ++ "\n", ?_⟩
      simp [String.append_assoc]

/-- C10 witness: on concrete queries over `bazaar.product`, UPDATE and
DELETE render `bazaar.product` without the `UsesSchema` capability,
while INSERT renders bare `product` without it and `bazaar.product`
with it. -/
theorem C10_table_qualification_witness :
    (∃ rest, ("UPDATE bazaar.product\n" ++ "SET a = , b = $1" : String) =
      "UPDATE " ++ (⟨"bazaar", "product"⟩ : TableName).complete_name ++ "\n" ++ rest)
    ∧ (∃ rest, ("DELETE FROM bazaar.product" : String) =
      "DELETE FROM " ++ (⟨"bazaar", "product"⟩ : TableName).complete_name ++ rest)
    ∧ (∃ rest, ("INSERT INTO product(a) " ++ "VALUES( $1) " ++ "\n" : String) =
      "INSERT INTO " ++ (⟨"bazaar", "product"⟩ : TableName).name ++ "(" ++ rest)
    ∧ (∃ rest, ("INSERT INTO bazaar.product(a) " ++ "VALUES( $1) " ++ "\n" : String) =
      "INSERT INTO " ++ (⟨"bazaar", "product"⟩ : TableName).complete_name ++ "(" ++ rest) :=
  ⟨(C10_table_qualification 19 optsNum updQ ⟨"bazaar", "product"⟩ (by decide)).1
     ⟨"UPDATE bazaar.product\n" ++ "SET a = , b = $1", [Value.I64 5]⟩ (by decide),
   (C10_table_qualification 19 optsNum updQ ⟨"bazaar", "product"⟩ (by decide)).2.1
     ⟨"DELETE FROM bazaar.product", []⟩ (by decide),
   (C10_table_qualification 19 optsNum insQ ⟨"bazaar", "product"⟩ (by decide)).2.2.1
     (by decide) ⟨"INSERT INTO product(a) " ++ "VALUES( $1) " ++ "\n", [Value.I64 7]⟩ (by decide),
   (C10_table_qualification 19 [SqlOption.UsesNumberedParam, SqlOption.UsesSchema] insQ
      ⟨"bazaar", "product"⟩ (by decide)).2.2.2
     (by decide) ⟨"INSERT INTO bazaar.product(a) " ++ "VALUES( $1) " ++ "\n", [Value.I64 7]⟩
     (by decide)⟩

end Rustorm
